import Mathlib

set_option allowUnsafeReducibility true
attribute [local semireducible] Rat.inv Rat.mul Rat.add Rat.sub Rat.ofScientific

/-!
Verification of the technical-indicator engine, rule-based recommendation
scorer and portfolio aggregator of `src/etl_factory/ai/market_analyzer.py`
(`MarketTrendAnalyzer.calculate_technical_indicators`,
`MarketTrendAnalyzer._generate_recommendation`,
`MarketTrendAnalyzer.analyze_multiple_stocks`,
`MarketTrendAnalyzer._get_portfolio_recommendation`).

Shallow embedding conventions:
* pandas float values are modelled as `ℚ`; a value that pandas would turn
  into NaN (0/0, division of a nonzero by zero, a statistic over too few
  samples) is modelled as `none : Option ℚ`.  Where IEEE arithmetic
  distinguishes `inf` from NaN the embedding follows the source's actual
  arithmetic: `gain/loss` with `loss = 0 < gain` is `+inf`, and then
  `rsi = 100 - 100/(1 + inf) = 100`, which the embedding returns directly.
* a pandas DataFrame of bars is a `List Bar`; the engine returns a
  `List Row`, one row per input bar, in sorted order.
* `rolling(window=w, min_periods=1)` over an all-numeric column at index
  `i` aggregates the slice of indices `max 0 (i+1-w) .. i`, which is
  `rollWindow xs w i` below.
* `.ewm(span=s, adjust=False).mean()` is the recursion `e 0 = x 0`,
  `e (i+1) = α * x (i+1) + (1-α) * e i` with `α = 2/(s+1)` (`emaAt`).
* `Series.std` (used for the Bollinger bands and `volatility`) is the
  square root of the sample variance (ddof = 1); since the square root of
  a rational is not rational, each row stores the sample variance
  (`bb_var`, `volatility_var`, both `none` on windows of fewer than two
  samples, where pandas yields NaN) and the source's `bb_std`, `bb_upper`,
  `bb_lower` and `volatility` columns are recovered as the derived
  real-valued functions `Row.bb_std`, `Row.bb_upper`, `Row.bb_lower`,
  `Row.volatility` below.
* `df.sort_values('timestamp')` is modelled as a stable insertion sort on
  the timestamp (for the small inputs evaluated concretely here, numpy's
  introsort is an insertion sort, hence stable).
* the `open` column of the input frame is never read nor written by the
  source, so `Bar` omits it.
-/

/-- One input bar: a row of the DataFrame handed to
`calculate_technical_indicators` (columns timestamp, high, low, close,
volume; all already numeric). -/
structure Bar where
  timestamp : ℚ
  high : ℚ
  low : ℚ
  close : ℚ
  volume : ℚ
deriving DecidableEq, Repr, Inhabited

/-- Trailing window of `rolling(window=w, min_periods=1)` at index `i`:
the last `min w (i+1)` of the first `i+1` elements. -/
def rollWindow {α : Type} (xs : List α) (w i : ℕ) : List α :=
  (xs.take (i+1)).drop (i+1 - w)

/-- Arithmetic mean of a list of rationals (only ever applied to nonempty
windows: with `min_periods=1` and numeric input every window is nonempty). -/
def mean (xs : List ℚ) : ℚ :=
  xs.sum / (xs.length : ℚ)

/-- Sample variance (ddof = 1) of a window, i.e. the square of the value
pandas' `rolling(...).std()` produces; `none` when the window holds fewer
than two samples (pandas: NaN). -/
def sampleVar (xs : List ℚ) : Option ℚ :=
  if xs.length < 2 then none
  else some (((xs.map (fun x => (x - mean xs)^2)).sum) / ((xs.length : ℚ) - 1))

/-- Value at index `i` of `.ewm(span=span, adjust=False).mean()` of the
column `xs`. -/
def emaAt (span : ℕ) (xs : List ℚ) : ℕ → ℚ
  | 0 => xs.getD 0 0
  | i+1 => (2/((span : ℚ)+1)) * xs.getD (i+1) 0
      + (1 - 2/((span : ℚ)+1)) * emaAt span xs i

/-- The column `delta.where(delta > 0, 0)` for `delta = close.diff()`:
index 0 holds 0 (the NaN of `diff` fails the `> 0` test), index `i ≥ 1`
holds the positive part of the delta. -/
def gainsOf (closes : List ℚ) : List ℚ :=
  (List.range closes.length).map
    (fun i => if i = 0 then 0 else max (closes.getD i 0 - closes.getD (i-1) 0) 0)

/-- The column `(-delta.where(delta < 0, 0))`: index 0 holds 0, index
`i ≥ 1` the positive part of the negated delta. -/
def lossesOf (closes : List ℚ) : List ℚ :=
  (List.range closes.length).map
    (fun i => if i = 0 then 0 else max (closes.getD (i-1) 0 - closes.getD i 0) 0)

/-- `rsi` at index `i`: `100 - 100/(1 + gain/loss)` over the 14-window
rolling means, with the source's IEEE artefacts made explicit:
`loss = 0 < gain` gives `rs = inf` hence rsi `100`; `loss = gain = 0`
gives `rs = 0/0 = NaN`, which propagates to a NaN rsi (`none`). -/
def rsiAt (closes : List ℚ) (i : ℕ) : Option ℚ :=
  let gain := mean (rollWindow (gainsOf closes) 14 i)
  let loss := mean (rollWindow (lossesOf closes) 14 i)
  if loss = 0 then (if gain = 0 then none else some 100)
  else some (100 - 100/(1 + gain/loss))

/-- `close.pct_change()` at index `i`: NaN (`none`) on the first row and
whenever the previous close is 0 (division artefact). -/
def priceChangeAt (closes : List ℚ) (i : ℕ) : Option ℚ :=
  if i = 0 then none
  else
    let prev := closes.getD (i-1) 0
    if prev = 0 then none else some ((closes.getD i 0 - prev) / prev)

/-- Square of the `volatility` column at index `i`: the sample variance of
the non-NaN `price_change` values in the trailing 20-window (pandas'
rolling std skips NaNs and yields NaN itself when fewer than two samples
remain). -/
def volVarAt (closes : List ℚ) (i : ℕ) : Option ℚ :=
  let pcs := (List.range closes.length).map (priceChangeAt closes)
  let vals := (rollWindow pcs 20 i).reduceOption
  if vals.length < 2 then none
  else some (((vals.map (fun x => (x - mean vals)^2)).sum) / ((vals.length : ℚ) - 1))

/-- One output row of `calculate_technical_indicators`: the input bar plus
the derived columns.  `bb_var` and `volatility_var` store the squares of
the source's `bb_std` and `volatility` columns (see module docstring); the
remaining band columns are the derived functions on `Row` below. -/
structure Row where
  bar : Bar
  sma_20 : ℚ
  sma_50 : ℚ
  ema_12 : ℚ
  ema_26 : ℚ
  macd : ℚ
  macd_signal : ℚ
  macd_histogram : ℚ
  rsi : Option ℚ
  bb_middle : ℚ
  bb_var : Option ℚ
  volume_sma : ℚ
  volume_ratio : Option ℚ
  price_change : Option ℚ
  volatility_var : Option ℚ
  trend : String
deriving DecidableEq, Repr, Inhabited

/-- Row `i` of the output frame, computed from the sorted bar list `s`
exactly as lines 82–116 of `market_analyzer.py` fill the columns.
`bb_middle` is a second `rolling(20, min_periods=1).mean()` of `close`,
identical to `sma_20`. -/
def rowAt (s : List Bar) (i : ℕ) : Row :=
  let closes := s.map Bar.close
  let volumes := s.map Bar.volume
  let sma20 := mean (rollWindow closes 20 i)
  let macdList := (List.range s.length).map
    (fun j => emaAt 12 closes j - emaAt 26 closes j)
  let vsma := mean (rollWindow volumes 20 i)
  let c := closes.getD i 0
  { bar := s.getD i default
    sma_20 := sma20
    sma_50 := mean (rollWindow closes 50 i)
    ema_12 := emaAt 12 closes i
    ema_26 := emaAt 26 closes i
    macd := emaAt 12 closes i - emaAt 26 closes i
    macd_signal := emaAt 9 macdList i
    macd_histogram := (emaAt 12 closes i - emaAt 26 closes i) - emaAt 9 macdList i
    rsi := rsiAt closes i
    bb_middle := sma20
    bb_var := sampleVar (rollWindow closes 20 i)
    volume_sma := vsma
    volume_ratio := if vsma = 0 then none else some (volumes.getD i 0 / vsma)
    price_change := priceChangeAt closes i
    volatility_var := volVarAt closes i
    trend := if c > sma20 then "bullish" else if c < sma20 then "bearish" else "neutral" }

/-- Ordering used by `df.sort_values('timestamp')`: ascending timestamp. -/
def tsLE (a b : Bar) : Prop := a.timestamp ≤ b.timestamp

instance : DecidableRel tsLE := fun a b =>
  inferInstanceAs (Decidable (a.timestamp ≤ b.timestamp))

instance : IsTotal Bar tsLE := ⟨fun a b => le_total a.timestamp b.timestamp⟩

instance : IsTrans Bar tsLE := ⟨fun _ _ _ h h2 => le_trans h h2⟩

/-- `df.sort_values('timestamp').reset_index(drop=True)`, as a stable
sort. -/
def sortBars (df : List Bar) : List Bar :=
  List.insertionSort tsLE df

/-- `MarketTrendAnalyzer.calculate_technical_indicators`: empty frame is
returned unchanged, otherwise the frame is sorted by timestamp and every
indicator column is filled (`min_periods=1`: no row is dropped). -/
def calculate_technical_indicators (df : List Bar) : List Row :=
  if df = [] then []
  else (List.range (sortBars df).length).map (rowAt (sortBars df))

/-- Python's `round(x, 2)` on the (exact decimal) confidences reachable in
the scorer. -/
def round2 (q : ℚ) : ℚ := (round (q * 100) : ℤ) / 100

/-- One alternative-strategy catalog entry. -/
structure Alt where
  strategy : String
  risk : String
  expected_return : String
  rationale : String
deriving DecidableEq, Repr

/-- The fixed 3-entry alternatives catalog returned with every
recommendation. -/
def alternativesCatalog : List Alt :=
  [ { strategy := "Index Funds (S&P 500, NASDAQ)", risk := "Low-Medium",
      expected_return := "7-10% annually",
      rationale := "Diversified exposure with lower volatility" },
    { strategy := "Bond ETFs", risk := "Low",
      expected_return := "3-5% annually",
      rationale := "Stable income with capital preservation" },
    { strategy := "Dividend Stocks", risk := "Medium",
      expected_return := "4-7% annually",
      rationale := "Regular income with potential capital appreciation" } ]

/-- Output of `_generate_recommendation` (the free-text `reasoning` field,
a format string over rsi/trend/price_change, is not modelled; no claim
mentions it). -/
structure Recommendation where
  action : String
  confidence : ℚ
  holding_period : String
  alternatives : List Alt
deriving DecidableEq, Repr

/-- The integer scoring accumulator of `_generate_recommendation`
(lines 288–309): the RSI band ladder, the trend term and the price-change
term.  `llm_insights` is not an input: no line of the accumulation reads
it. -/
def scoreOf (rsi : ℚ) (trend : String) (price_change : ℚ) : ℤ :=
  (if rsi < 30 then 2
   else if rsi > 70 then -2
   else if 30 ≤ rsi ∧ rsi ≤ 50 then 1
   else 0)
  + (if trend = "bullish" then 1 else if trend = "bearish" then -1 else 0)
  + (if price_change > 5 then -1 else if price_change < -5 then 1 else 0)

/-- The confidence after the volatility step (lines 289 and 312–313):
baseline 0.5, minus 0.2 when volatility > 3. -/
def confAfterVol (volatility : ℚ) : ℚ :=
  if volatility > 3 then 1/2 - 1/5 else 1/2

/-- `MarketTrendAnalyzer._generate_recommendation` (lines 282–357):
rule-based action/confidence/holding-period; the `llm_insights` argument
is accepted and ignored by every computation. -/
def _generate_recommendation (rsi : ℚ) (trend : String)
    (price_change : ℚ) (volatility : ℚ) (llm_insights : String) :
    Recommendation :=
  let score := scoreOf rsi trend price_change
  let confidence := confAfterVol volatility
  if score ≥ 2 then
    { action := "BUY"
      confidence := round2 (min (9/10) (confidence + 1/5))
      holding_period :=
        if volatility < 2 then "medium-term (1-4 weeks)" else "short-term (1-7 days)"
      alternatives := alternativesCatalog }
  else if score ≤ -2 then
    { action := "SELL"
      confidence := round2 (min (9/10) (confidence + 1/5))
      holding_period := "immediate"
      alternatives := alternativesCatalog }
  else
    { action := "WAIT"
      confidence := round2 (3/5)
      holding_period := "monitor for 1-2 weeks"
      alternatives := alternativesCatalog }

/-- One per-ticker entry of the `analyses` mapping consumed by the
portfolio aggregation: its `recommendation` action string and its
`confidence`. -/
structure Analysis where
  recommendation : String
  confidence : ℚ
deriving DecidableEq, Repr

/-- The `portfolio_summary` block built by `analyze_multiple_stocks`
(lines 382–396). -/
structure PortfolioSummary where
  total_stocks : ℕ
  buy_recommendations : ℕ
  sell_recommendations : ℕ
  wait_recommendations : ℕ
  overall_sentiment : String
deriving DecidableEq, Repr

/-- Counts and sentiment exactly as `analyze_multiple_stocks` computes
them over the analyses mapping. -/
def portfolio_summary (analyses : List Analysis) : PortfolioSummary :=
  let buy_count := analyses.countP (fun a => a.recommendation == "BUY")
  let sell_count := analyses.countP (fun a => a.recommendation == "SELL")
  let wait_count := analyses.countP (fun a => a.recommendation == "WAIT")
  { total_stocks := analyses.length
    buy_recommendations := buy_count
    sell_recommendations := sell_count
    wait_recommendations := wait_count
    overall_sentiment :=
      if buy_count > sell_count then "bullish"
      else if sell_count > buy_count then "bearish" else "neutral" }

/-- Portfolio-level recommendation record. -/
structure PortfolioRec where
  action : String
  rationale : String
  suggested_allocation : String
deriving DecidableEq, Repr

/-- `np.mean` of the confidences: NaN (`none`) on an empty mapping (numpy
warns and returns NaN, it does not raise). -/
def avgConfidence (analyses : List Analysis) : Option ℚ :=
  if analyses.length = 0 then none
  else some ((analyses.map Analysis.confidence).sum / (analyses.length : ℚ))

/-- NaN-aware `>` against a threshold: a NaN average compares false, as in
numpy. -/
def nanGT (o : Option ℚ) (t : ℚ) : Bool :=
  match o with
  | none => false
  | some c => decide (t < c)

/-- `buy_ratio` with the source's explicit empty-map guard
(`... if analyses else 0`). -/
def buyRatio (analyses : List Analysis) : ℚ :=
  if analyses.length = 0 then 0
  else ((analyses.countP (fun a => a.recommendation == "BUY") : ℕ) : ℚ)
      / (analyses.length : ℚ)

/-- `MarketTrendAnalyzer._get_portfolio_recommendation` (lines 401–429):
the ordered ladder over `buy_ratio` and `avg_confidence`. -/
def _get_portfolio_recommendation (analyses : List Analysis) : PortfolioRec :=
  let avg_confidence := avgConfidence analyses
  let buy_ratio := buyRatio analyses
  if buy_ratio > 3/5 ∧ nanGT avg_confidence (7/10) = true then
    { action := "AGGRESSIVE_BUY"
      rationale := "Strong buy signals across portfolio with high confidence"
      suggested_allocation := "70% stocks, 30% bonds" }
  else if buy_ratio > 2/5 then
    { action := "MODERATE_BUY"
      rationale := "Moderate buy signals, consider gradual entry"
      suggested_allocation := "50% stocks, 50% bonds" }
  else if buy_ratio < 3/10 then
    { action := "DEFENSIVE"
      rationale := "Weak signals, consider defensive positioning"
      suggested_allocation := "30% stocks, 70% bonds/cash" }
  else
    { action := "WAIT"
      rationale := "Mixed signals, wait for clearer direction"
      suggested_allocation := "40% stocks, 60% bonds/cash" }

/-- Derived column `bb_std`: the 20-window rolling sample standard
deviation of `close` (NaN on the first row). -/
noncomputable def Row.bb_std (r : Row) : Option ℝ :=
  r.bb_var.map (fun v => Real.sqrt (v : ℝ))

/-- Derived column `bb_upper = bb_middle + 2 * bb_std`. -/
noncomputable def Row.bb_upper (r : Row) : Option ℝ :=
  r.bb_var.map (fun v => (r.bb_middle : ℝ) + Real.sqrt (v : ℝ) * 2)

/-- Derived column `bb_lower = bb_middle - 2 * bb_std`. -/
noncomputable def Row.bb_lower (r : Row) : Option ℝ :=
  r.bb_var.map (fun v => (r.bb_middle : ℝ) - Real.sqrt (v : ℝ) * 2)

/-- Derived column `volatility`: rolling sample standard deviation of
`price_change`. -/
noncomputable def Row.volatility (r : Row) : Option ℝ :=
  r.volatility_var.map (fun v => Real.sqrt (v : ℝ))

/-- A constant-price series: `n` bars at close `c`, distinct increasing
timestamps, constant volume. -/
def constSeries (c : ℚ) (n : ℕ) : List Bar :=
  (List.range n).map (fun (i : ℕ) =>
    { timestamp := (i : ℚ), high := c, low := c, close := c, volume := 1000 })

/-! ## Helper lemmas -/

/-- Rounding to two decimals is the identity on every confidence the
scorer can produce. -/
theorem round2_conf (v : ℚ) :
    round2 (min (9/10) (confAfterVol v + 1/5)) = min (9/10) (confAfterVol v + 1/5) := by
  unfold confAfterVol
  split_ifs <;> decide

/-- The cap `min 0.9` never binds: the pre-cap confidence is at most 0.7. -/
theorem min_cap_slack (v : ℚ) :
    min (9/10) (confAfterVol v + 1/5) = confAfterVol v + 1/5 := by
  unfold confAfterVol
  split_ifs <;> decide

/-- Every confidence the scorer returns is 0.5, 0.6 or 0.7. -/
theorem confidence_cases (rsi : ℚ) (trend : String) (price_change volatility : ℚ)
    (llm_insights : String) :
    (_generate_recommendation rsi trend price_change volatility llm_insights).confidence = 1/2 ∨
    (_generate_recommendation rsi trend price_change volatility llm_insights).confidence = 3/5 ∨
    (_generate_recommendation rsi trend price_change volatility llm_insights).confidence = 7/10 := by
  simp only [_generate_recommendation, confAfterVol]
  split_ifs <;> first | (left; decide) | (right; left; decide) | (right; right; decide)

/-! ## C3 -/

/-- C3: the recommendation returned by `_generate_recommendation` is the
same record (action, confidence, holding period, alternatives) for every
value of the `llm_insights` narrative string: the narrative never
influences the rule-based output. -/
theorem narrative_no_influence (rsi : ℚ) (trend : String)
    (price_change volatility : ℚ) (s1 s2 : String) :
    _generate_recommendation rsi trend price_change volatility s1 =
    _generate_recommendation rsi trend price_change volatility s2 := rfl

/-! ## C7 -/

/-- C7: holding rsi and price_change fixed, the score with trend bullish
is at least the score with trend bearish. -/
theorem score_monotone_in_trend (rsi price_change : ℚ) :
    scoreOf rsi "bearish" price_change ≤ scoreOf rsi "bullish" price_change := by
  unfold scoreOf
  have h2 : ¬(("bearish" : String) = "bullish") := by decide
  rw [if_pos (rfl : ("bullish" : String) = "bullish"), if_neg h2,
    if_pos (rfl : ("bearish" : String) = "bearish")]
  omega

/-! ## C6 -/

/-- C6: the decision ladder of `_generate_recommendation`: score ≥ 2 gives
BUY (so exactly 2 is BUY), score ≤ −2 gives SELL (exactly −2 is SELL),
anything strictly between (so exactly 1 or −1) gives WAIT; on BUY and SELL
the confidence is `min 0.9 (confidence + 0.2)` applied to the
post-volatility confidence, and on WAIT the confidence is fixed at 0.6,
overriding the volatility penalty entirely. -/
theorem decision_ladder (rsi : ℚ) (trend : String) (price_change volatility : ℚ)
    (llm_insights : String) :
    (2 ≤ scoreOf rsi trend price_change →
      (_generate_recommendation rsi trend price_change volatility llm_insights).action = "BUY" ∧
      (_generate_recommendation rsi trend price_change volatility llm_insights).confidence =
        min (9/10) (confAfterVol volatility + 1/5)) ∧
    (scoreOf rsi trend price_change ≤ -2 →
      (_generate_recommendation rsi trend price_change volatility llm_insights).action = "SELL" ∧
      (_generate_recommendation rsi trend price_change volatility llm_insights).confidence =
        min (9/10) (confAfterVol volatility + 1/5)) ∧
    (-2 < scoreOf rsi trend price_change → scoreOf rsi trend price_change < 2 →
      (_generate_recommendation rsi trend price_change volatility llm_insights).action = "WAIT" ∧
      (_generate_recommendation rsi trend price_change volatility llm_insights).confidence = 3/5) := by
  refine ⟨fun h => ?_, fun h => ?_, fun h1 h2 => ?_⟩ <;>
    simp only [_generate_recommendation]
  · rw [if_pos (show scoreOf rsi trend price_change ≥ 2 from h)]
    exact ⟨rfl, round2_conf volatility⟩
  · rw [if_neg (show ¬scoreOf rsi trend price_change ≥ 2 by omega), if_pos h]
    exact ⟨rfl, round2_conf volatility⟩
  · rw [if_neg (show ¬scoreOf rsi trend price_change ≥ 2 by omega),
      if_neg (show ¬scoreOf rsi trend price_change ≤ -2 by omega)]
    exact ⟨rfl, by decide⟩

/-- C6 witness: the four boundary scores.  `scoreOf 20 "neutral" 0 = 2`
(BUY), `scoreOf 80 "neutral" 0 = -2` (SELL), `scoreOf 40 "neutral" 0 = 1`
(WAIT), `scoreOf 60 "bearish" 0 = -1` (WAIT, even under the volatility
penalty). -/
theorem decision_ladder_check :
    ((_generate_recommendation 20 "neutral" 0 0 "").action = "BUY" ∧
      (_generate_recommendation 20 "neutral" 0 0 "").confidence =
        min (9/10) (confAfterVol 0 + 1/5)) ∧
    ((_generate_recommendation 80 "neutral" 0 0 "").action = "SELL" ∧
      (_generate_recommendation 80 "neutral" 0 0 "").confidence =
        min (9/10) (confAfterVol 0 + 1/5)) ∧
    ((_generate_recommendation 40 "neutral" 0 4 "").action = "WAIT" ∧
      (_generate_recommendation 40 "neutral" 0 4 "").confidence = 3/5) ∧
    ((_generate_recommendation 60 "bearish" 0 0 "").action = "WAIT" ∧
      (_generate_recommendation 60 "bearish" 0 0 "").confidence = 3/5) :=
  ⟨(decision_ladder 20 "neutral" 0 0 "").1 (by decide),
   (decision_ladder 80 "neutral" 0 0 "").2.1 (by decide),
   (decision_ladder 40 "neutral" 0 4 "").2.2 (by decide) (by decide),
   (decision_ladder 60 "bearish" 0 0 "").2.2 (by decide) (by decide)⟩

/-! ## C8 -/

/-- C8: with rsi above 70, a bullish trend and a 30-day price change above
5, the ladder nets to −2 (−2 overbought, +1 bullish, −1 overvalued) and
the action is SELL: the overbought penalty dominates the bullish bonus. -/
theorem overbought_dominates_bullish (rsi price_change volatility : ℚ)
    (llm_insights : String) (h1 : rsi > 70) (h2 : price_change > 5) :
    scoreOf rsi "bullish" price_change = -2 ∧
    (_generate_recommendation rsi "bullish" price_change volatility llm_insights).action
      = "SELL" := by
  have hs : scoreOf rsi "bullish" price_change = -2 := by
    unfold scoreOf
    rw [if_neg (show ¬rsi < 30 by linarith), if_pos h1,
      if_pos (rfl : ("bullish" : String) = "bullish"), if_pos h2]
    decide
  refine ⟨hs, ?_⟩
  simp only [_generate_recommendation, hs]
  norm_num

/-- C8 witness: rsi 80, bullish, 30-day change 10%. -/
theorem overbought_dominates_bullish_check :
    scoreOf 80 "bullish" 10 = -2 ∧
    (_generate_recommendation 80 "bullish" 10 1 "").action = "SELL" :=
  overbought_dominates_bullish 80 10 1 "" (by decide) (by decide)

/-! ## C9 -/

/-- C9: the confidence returned by `_generate_recommendation` is always
one of 0.5, 0.6, 0.7 (in particular never negative and never above 0.7),
and the 0.9 cap in `min 0.9 (confidence + 0.2)` is never the binding
bound. -/
theorem confidence_range (rsi : ℚ) (trend : String) (price_change volatility : ℚ)
    (llm_insights : String) :
    ((_generate_recommendation rsi trend price_change volatility llm_insights).confidence = 1/2 ∨
     (_generate_recommendation rsi trend price_change volatility llm_insights).confidence = 3/5 ∨
     (_generate_recommendation rsi trend price_change volatility llm_insights).confidence = 7/10) ∧
    min (9/10) (confAfterVol volatility + 1/5) = confAfterVol volatility + 1/5 :=
  ⟨confidence_cases rsi trend price_change volatility llm_insights, min_cap_slack volatility⟩

/-! ## C1 -/

/-- C1 counterexample: on the empty portfolio map the aggregate action is
DEFENSIVE, not the claimed WAIT: `buy_ratio = 0` falls into the
`buy_ratio < 0.3` branch of the ordered ladder. -/
theorem empty_portfolio_not_wait :
    (_get_portfolio_recommendation []).action = "DEFENSIVE" ∧
    (_get_portfolio_recommendation []).action ≠ "WAIT" := by decide

/-- C1 amended: empty portfolio map gives zero counts, neutral sentiment
and a totally-defined (guarded, not thrown) aggregation: `buy_ratio` is
guarded to 0, the numpy mean of no confidences is NaN (which compares
false against 0.7), and the aggregate action is DEFENSIVE, since
`buy_ratio = 0 < 0.3`. -/
theorem empty_portfolio_aggregation :
    portfolio_summary [] = { total_stocks := 0
                             buy_recommendations := 0
                             sell_recommendations := 0
                             wait_recommendations := 0
                             overall_sentiment := "neutral" } ∧
    buyRatio [] = 0 ∧ avgConfidence [] = none ∧
    _get_portfolio_recommendation [] =
      { action := "DEFENSIVE"
        rationale := "Weak signals, consider defensive positioning"
        suggested_allocation := "30% stocks, 70% bonds/cash" } := by decide

/-! ## C10 -/

/-- Unfolding equation for `nanGT` on a present value. -/
theorem nanGT_some (q t : ℚ) : nanGT (some q) t = decide (t < q) := rfl

/-- If every confidence in a nonempty analyses list is at most 0.7, the
numpy mean of the confidences does not exceed 0.7. -/
theorem avg_le_of_all_le (analyses : List Analysis) (hne : analyses ≠ [])
    (h : ∀ a ∈ analyses, a.confidence ≤ 7/10) :
    nanGT (avgConfidence analyses) (7/10) = false := by
  have hlen0 : analyses.length ≠ 0 := fun h0 => hne (List.length_eq_zero.mp h0)
  unfold avgConfidence
  rw [if_neg hlen0, nanGT_some, decide_eq_false_iff_not, not_lt]
  have hpos : (0 : ℚ) < (analyses.length : ℚ) := by
    exact_mod_cast Nat.pos_of_ne_zero hlen0
  rw [div_le_iff₀ hpos]
  have hsum : (analyses.map Analysis.confidence).sum ≤
      (analyses.map Analysis.confidence).length • (7/10 : ℚ) :=
    List.sum_le_card_nsmul _ _ (by
      intro x hx
      obtain ⟨a, ha, rfl⟩ := List.mem_map.mp hx
      exact h a ha)
  rw [List.length_map, nsmul_eq_mul] at hsum
  linarith

/-- C10: AGGRESSIVE_BUY is unreachable from scorer output: when every
confidence in a nonempty analyses map was produced by
`_generate_recommendation`, the average confidence is at most 0.7, so the
`avg_confidence > 0.7` conjunct is false and the portfolio action is never
AGGRESSIVE_BUY. -/
theorem aggressive_buy_unreachable (analyses : List Analysis) (hne : analyses ≠ [])
    (hconf : ∀ a ∈ analyses, ∃ rsi trend price_change volatility llm_insights,
      a.confidence =
        (_generate_recommendation rsi trend price_change volatility llm_insights).confidence) :
    (_get_portfolio_recommendation analyses).action ≠ "AGGRESSIVE_BUY" := by
  have hle : ∀ a ∈ analyses, a.confidence ≤ 7/10 := by
    intro a ha
    obtain ⟨r, t, p, v, l, he⟩ := hconf a ha
    rcases confidence_cases r t p v l with h | h | h <;> rw [he, h] <;> norm_num
  have havg := avg_le_of_all_le analyses hne hle
  simp only [_get_portfolio_recommendation]
  rw [if_neg (by simp [havg])]
  split_ifs <;> decide

/-- C10 witness: a single-ticker portfolio whose confidence 0.7 is the
scorer's output on rsi 20, bullish trend, 30-day change −10. -/
theorem aggressive_buy_unreachable_check :
    (⟨"BUY", 7/10⟩ : Analysis).confidence =
      (_generate_recommendation 20 "bullish" (-10) 0 "").confidence ∧
    (_get_portfolio_recommendation [⟨"BUY", 7/10⟩]).action ≠ "AGGRESSIVE_BUY" :=
  ⟨by decide,
   aggressive_buy_unreachable [⟨"BUY", 7/10⟩] (by simp)
     (by
       intro a ha
       rw [List.mem_singleton] at ha
       exact ⟨20, "bullish", -10, 0, "", by rw [ha]; decide⟩)⟩

/-! ## C4 -/

/-- The engine's output has one row per input bar. -/
theorem calc_length (df : List Bar) :
    (calculate_technical_indicators df).length = df.length := by
  unfold calculate_technical_indicators
  split_ifs with h
  · simp [h]
  · simp [sortBars, List.length_insertionSort]

/-- Row `i` of the output is `rowAt` of the sorted frame. -/
theorem calc_getD (df : List Bar) (i : ℕ) (h : i < df.length) :
    (calculate_technical_indicators df).getD i default = rowAt (sortBars df) i := by
  have hne : df ≠ [] := by
    intro h0
    subst h0
    simp at h
  unfold calculate_technical_indicators
  rw [if_neg hne]
  have hlen : i < ((List.range (sortBars df).length).map (rowAt (sortBars df))).length := by
    simpa [sortBars, List.length_insertionSort] using h
  rw [List.getD_eq_getElem _ _ hlen]
  simp

/-- C4: the engine returns exactly one row per input bar — the empty
frame maps to the empty frame with no error, the output length always
equals the input length, and a row at index `i` below the window size
carries statistics of the partial window of rows `1..i+1` (shown for the
20-row simple moving average). -/
theorem indicator_length_and_partial_windows :
    calculate_technical_indicators [] = [] ∧
    (∀ df : List Bar, (calculate_technical_indicators df).length = df.length) ∧
    (∀ df : List Bar, ∀ i : ℕ, i < df.length → i < 20 →
      ((calculate_technical_indicators df).getD i default).sma_20 =
        mean (((sortBars df).map Bar.close).take (i+1))) := by
  refine ⟨rfl, calc_length, ?_⟩
  intro df i hi h20
  rw [calc_getD df i hi]
  show mean (rollWindow ((sortBars df).map Bar.close) 20 i) = _
  unfold rollWindow
  rw [Nat.sub_eq_zero_of_le (by omega), List.drop_zero]

/-- C4 witness: a two-bar frame; the row at index 1 averages the partial
two-element window. -/
theorem indicator_partial_window_check :
    (1 < ([⟨0,1,1,1,10⟩, ⟨1,2,2,2,20⟩] : List Bar).length ∧ (1:ℕ) < 20) ∧
    ((calculate_technical_indicators [⟨0,1,1,1,10⟩, ⟨1,2,2,2,20⟩]).getD 1 default).sma_20 =
      mean (((sortBars [⟨0,1,1,1,10⟩, ⟨1,2,2,2,20⟩]).map Bar.close).take 2) :=
  ⟨⟨by decide, by decide⟩,
   indicator_length_and_partial_windows.2.2 [⟨0,1,1,1,10⟩, ⟨1,2,2,2,20⟩] 1
     (by decide) (by decide)⟩

/-! ## C5 -/

/-- Two lists that are permutations of each other, both sorted by
timestamp, with pairwise-distinct timestamps, are equal. -/
theorem sorted_perm_eq_of_nodup_ts :
    ∀ {l₁ l₂ : List Bar}, l₁.Perm l₂ → List.Sorted tsLE l₁ →
      List.Sorted tsLE l₂ → (l₁.map Bar.timestamp).Nodup → l₁ = l₂ := by
  intro l₁
  induction l₁ with
  | nil =>
    intro l₂ hp _ _ _
    exact hp.nil_eq
  | cons a t ih =>
    intro l₂ hp hs₁ hs₂ hnd
    cases l₂ with
    | nil => exact absurd (List.Perm.nil_eq hp.symm) (by simp)
    | cons b t₂ =>
      have hnd₁ : a.timestamp ∉ t.map Bar.timestamp ∧ (t.map Bar.timestamp).Nodup :=
        List.nodup_cons.mp (by simpa using hnd)
      have hab : a = b := by
        rcases List.mem_cons.mp (hp.symm.subset (List.mem_cons_self b t₂)) with hb | hb
        · exact hb.symm
        · rcases List.mem_cons.mp (hp.subset (List.mem_cons_self a t)) with ha | ha
          · exact ha
          · have h1 : tsLE a b := (List.sorted_cons.mp hs₁).1 b hb
            have h2 : tsLE b a := (List.sorted_cons.mp hs₂).1 a ha
            have hts : a.timestamp = b.timestamp := le_antisymm h1 h2
            have hcontra : a.timestamp ∈ t.map Bar.timestamp := by
              rw [hts]
              exact List.mem_map_of_mem Bar.timestamp hb
            exact absurd hcontra hnd₁.1
      subst hab
      rw [ih hp.cons_inv (List.sorted_cons.mp hs₁).2 (List.sorted_cons.mp hs₂).2 hnd₁.2]

/-- C5 (amended): when the timestamps are pairwise distinct, the engine's
output is invariant under any permutation of the input rows — the internal
sort rebuilds the unique ascending order.  (With tied timestamps the
output depends on the input order of the tied rows; see the
counterexample.) -/
theorem perm_invariance_distinct_timestamps (xs ys : List Bar)
    (hperm : xs.Perm ys) (hnodup : (xs.map Bar.timestamp).Nodup) :
    calculate_technical_indicators xs = calculate_technical_indicators ys := by
  have hsort : sortBars xs = sortBars ys := by
    apply sorted_perm_eq_of_nodup_ts
    · exact (List.perm_insertionSort tsLE xs).trans
        (hperm.trans (List.perm_insertionSort tsLE ys).symm)
    · exact List.sorted_insertionSort tsLE xs
    · exact List.sorted_insertionSort tsLE ys
    · exact (((List.perm_insertionSort tsLE xs).map Bar.timestamp).nodup_iff).mpr hnodup
  by_cases hx : xs = []
  · subst hx
    rw [← hperm.nil_eq]
  · have hy : ys ≠ [] := by
      intro h0
      subst h0
      exact hx hperm.symm.nil_eq.symm
    unfold calculate_technical_indicators
    rw [if_neg hx, if_neg hy, hsort]

/-- C5 witness: swapping two bars with distinct timestamps leaves the
output unchanged. -/
theorem perm_invariance_check :
    (List.Perm [(⟨0,1,1,1,10⟩ : Bar), ⟨1,2,2,2,20⟩] [⟨1,2,2,2,20⟩, ⟨0,1,1,1,10⟩] ∧
      (([(⟨0,1,1,1,10⟩ : Bar), ⟨1,2,2,2,20⟩]).map Bar.timestamp).Nodup) ∧
    calculate_technical_indicators [(⟨0,1,1,1,10⟩ : Bar), ⟨1,2,2,2,20⟩] =
      calculate_technical_indicators [⟨1,2,2,2,20⟩, ⟨0,1,1,1,10⟩] :=
  ⟨⟨by decide, by decide⟩,
   perm_invariance_distinct_timestamps _ _ (by decide) (by decide)⟩

/-- C5 counterexample: two bars share timestamp 0 with different closes;
swapping them is a permutation of the same series, yet the outputs differ,
because the (stable) sort keeps tied rows in input order.  So the engine
is not invariant under permutations that reorder tied timestamps. -/
theorem perm_invariance_fails_on_ties :
    List.Perm [(⟨0,1,1,1,10⟩ : Bar), ⟨0,2,2,2,10⟩] [⟨0,2,2,2,10⟩, ⟨0,1,1,1,10⟩] ∧
    calculate_technical_indicators [(⟨0,1,1,1,10⟩ : Bar), ⟨0,2,2,2,10⟩] ≠
      calculate_technical_indicators [⟨0,2,2,2,10⟩, ⟨0,1,1,1,10⟩] :=
  ⟨by decide, by decide⟩

/-! ## C2 -/

/-- The mean of a nonempty constant window is the constant. -/
theorem mean_replicate (k : ℕ) (c : ℚ) (hk : k ≠ 0) :
    mean (List.replicate k c) = c := by
  unfold mean
  rw [List.sum_replicate, List.length_replicate, nsmul_eq_mul, mul_comm,
    mul_div_assoc, div_self (Nat.cast_ne_zero.mpr hk), mul_one]

/-- A rolling window over a constant column is a constant window (of
nonzero size, since `min_periods = 1`). -/
theorem rollWindow_replicate (c : ℚ) (n w i : ℕ) (hi : i < n) :
    rollWindow (List.replicate n c) w i = List.replicate ((i+1) - (i+1-w)) c := by
  unfold rollWindow
  rw [List.take_replicate, List.drop_replicate, Nat.min_eq_left (by omega)]

/-- `getD` on a constant column. -/
theorem getD_replicate_of_lt (c d : ℚ) (n i : ℕ) (h : i < n) :
    (List.replicate n c).getD i d = c := by
  rw [List.getD_eq_getElem _ _ (by simpa using h)]
  simp

/-- On a constant close column every positive-delta entry is 0. -/
theorem gainsOf_replicate (c : ℚ) (n : ℕ) :
    gainsOf (List.replicate n c) = List.replicate n 0 := by
  unfold gainsOf
  rw [List.length_replicate]
  refine List.eq_replicate_iff.mpr ⟨by simp, ?_⟩
  intro b hb
  obtain ⟨i, hi, rfl⟩ := List.mem_map.mp hb
  rw [List.mem_range] at hi
  by_cases h0 : i = 0
  · simp [h0]
  · rw [if_neg h0, getD_replicate_of_lt _ _ _ _ hi,
      getD_replicate_of_lt _ _ _ _ (by omega)]
    simp

/-- On a constant close column every negative-delta entry is 0. -/
theorem lossesOf_replicate (c : ℚ) (n : ℕ) :
    lossesOf (List.replicate n c) = List.replicate n 0 := by
  unfold lossesOf
  rw [List.length_replicate]
  refine List.eq_replicate_iff.mpr ⟨by simp, ?_⟩
  intro b hb
  obtain ⟨i, hi, rfl⟩ := List.mem_map.mp hb
  rw [List.mem_range] at hi
  by_cases h0 : i = 0
  · simp [h0]
  · rw [if_neg h0, getD_replicate_of_lt _ _ _ _ hi,
      getD_replicate_of_lt _ _ _ _ (by omega)]
    simp

/-- On a constant close column gain = loss = 0, i.e. `rs = 0/0` (pandas:
NaN), so the rsi of every row is missing. -/
theorem rsiAt_replicate (c : ℚ) (n i : ℕ) (hi : i < n) :
    rsiAt (List.replicate n c) i = none := by
  simp only [rsiAt]
  rw [gainsOf_replicate, lossesOf_replicate, rollWindow_replicate 0 n 14 i hi,
    mean_replicate _ _ (by omega)]
  simp

/-- The sample variance of a constant window of at least two samples is 0. -/
theorem sampleVar_replicate (c : ℚ) (k : ℕ) (hk : 2 ≤ k) :
    sampleVar (List.replicate k c) = some 0 := by
  unfold sampleVar
  rw [List.length_replicate, if_neg (by omega)]
  rw [mean_replicate _ _ (by omega), List.map_replicate]
  simp

/-- The constant series really is `n` bars. -/
theorem constSeries_length (c : ℚ) (n : ℕ) : (constSeries c n).length = n := by
  unfold constSeries
  simp

/-- The close column of the constant series is constant. -/
theorem constSeries_closes (c : ℚ) (n : ℕ) :
    (constSeries c n).map Bar.close = List.replicate n c := by
  unfold constSeries
  rw [List.map_map]
  show (List.range n).map (fun _ => c) = _
  rw [List.map_const', List.length_range]

/-- The constant series arrives already sorted by its timestamps 0..n−1. -/
theorem constSeries_sorted (c : ℚ) (n : ℕ) : List.Sorted tsLE (constSeries c n) := by
  unfold constSeries
  exact List.Pairwise.map _
    (fun a b h => by
      show ((a : ℚ) ≤ (b : ℚ))
      exact_mod_cast le_of_lt h)
    (List.pairwise_lt_range n)

/-- Sorting the constant series leaves it unchanged. -/
theorem constSeries_sortBars (c : ℚ) (n : ℕ) :
    sortBars (constSeries c n) = constSeries c n := by
  unfold sortBars
  exact List.Sorted.insertionSort_eq (constSeries_sorted c n)

/-- C2 (amended): the rsi division never raises — when the 14-period mean
loss is 0 with a nonzero mean gain the rsi is the passthrough value 100 —
but on a constant-price series (all closes equal, N ≥ 20) gain and loss
are both 0, `rs = 0/0` is NaN, and every row's rsi is missing (NaN), not
100; the Bollinger bands collapse, `bb_upper = bb_middle = bb_lower`, on
every row after the first (σ = 0), and the trend is neutral on every row. -/
theorem rsi_zero_loss_and_const_series (c : ℚ) (n : ℕ) (hn : 20 ≤ n)
    (i : ℕ) (hi : i < n) :
    (∀ (closes : List ℚ) (j : ℕ),
      mean (rollWindow (lossesOf closes) 14 j) = 0 →
      mean (rollWindow (gainsOf closes) 14 j) ≠ 0 →
      rsiAt closes j = some 100) ∧
    ((calculate_technical_indicators (constSeries c n)).getD i default).rsi = none ∧
    ((calculate_technical_indicators (constSeries c n)).getD i default).trend = "neutral" ∧
    (1 ≤ i →
      ((calculate_technical_indicators (constSeries c n)).getD i default).bb_upper =
        some (((calculate_technical_indicators (constSeries c n)).getD i default).bb_middle : ℝ) ∧
      ((calculate_technical_indicators (constSeries c n)).getD i default).bb_lower =
        some (((calculate_technical_indicators (constSeries c n)).getD i default).bb_middle : ℝ)) := by
  have hrow : (calculate_technical_indicators (constSeries c n)).getD i default
      = rowAt (constSeries c n) i := by
    rw [calc_getD _ _ (by rw [constSeries_length]; exact hi), constSeries_sortBars]
  refine ⟨?_, ?_, ?_, ?_⟩
  · intro closes j hl hg
    simp only [rsiAt]
    rw [if_pos hl, if_neg hg]
  · rw [hrow]
    show rsiAt ((constSeries c n).map Bar.close) i = none
    rw [constSeries_closes]
    exact rsiAt_replicate c n i hi
  · rw [hrow]
    show (if ((constSeries c n).map Bar.close).getD i 0 >
          mean (rollWindow ((constSeries c n).map Bar.close) 20 i) then "bullish"
        else if ((constSeries c n).map Bar.close).getD i 0 <
          mean (rollWindow ((constSeries c n).map Bar.close) 20 i) then "bearish"
        else "neutral") = "neutral"
    rw [constSeries_closes, rollWindow_replicate c n 20 i hi,
      mean_replicate _ _ (by omega), getD_replicate_of_lt _ _ _ _ hi]
    simp
  · intro h1
    rw [hrow]
    have hvar : (rowAt (constSeries c n) i).bb_var = some 0 := by
      show sampleVar (rollWindow ((constSeries c n).map Bar.close) 20 i) = some 0
      rw [constSeries_closes, rollWindow_replicate c n 20 i hi]
      exact sampleVar_replicate c _ (by omega)
    constructor
    · rw [Row.bb_upper, hvar]
      norm_num
    · rw [Row.bb_lower, hvar]
      norm_num

/-- C2 witness: the constant series of 20 bars at close 5, row 1. -/
theorem rsi_const_series_check :
    ((calculate_technical_indicators (constSeries 5 20)).getD 1 default).rsi = none ∧
    ((calculate_technical_indicators (constSeries 5 20)).getD 1 default).trend = "neutral" ∧
    ((calculate_technical_indicators (constSeries 5 20)).getD 1 default).bb_upper =
      some (((calculate_technical_indicators (constSeries 5 20)).getD 1 default).bb_middle : ℝ) :=
  ⟨(rsi_zero_loss_and_const_series 5 20 (by decide) 1 (by decide)).2.1,
   (rsi_zero_loss_and_const_series 5 20 (by decide) 1 (by decide)).2.2.1,
   ((rsi_zero_loss_and_const_series 5 20 (by decide) 1 (by decide)).2.2.2 (by decide)).1⟩

/-- C2 counterexample: in the constant series of 20 bars at close 5, the
14-period mean loss at row 1 is 0, yet the rsi of row 1 is not the
claimed sentinel 100 — it is missing (pandas: `0/0 = NaN`). -/
theorem rsi_const_series_not_100 :
    mean (rollWindow (lossesOf ((constSeries 5 20).map Bar.close)) 14 1) = 0 ∧
    ((calculate_technical_indicators (constSeries 5 20)).getD 1 default).rsi ≠ some 100 ∧
    ((calculate_technical_indicators (constSeries 5 20)).getD 1 default).rsi = none :=
  ⟨by decide, by decide, by decide⟩
